import Mathlib

/-!
Shallow embedding of `deeplake/integrations/mmseg/mmseg_.py`: the
configuration dictionaries, the data-loader builder `build_dataloader`, the
training-orchestration glue `_train_segmentor`, the per-sample `transform`
and the evaluation post-processing of `MMSegDataset.evaluate`, together with
theorems checking the specification's claims against these definitions.

External collaborators (mmcv/mmseg runners, hooks, optimizers, the torch
loaders themselves, `eval_metrics`) are not part of this repository slice;
they appear as abstract parameters.  Machine floats are modelled by `Rat`
(the rounding formulas are exact on the inputs considered), python `dict`s
by insertion-ordered association lists where a later binding wins, and
python exceptions by an explicit `Except` result.
-/

namespace MMSegModel

/-- A python configuration value of the kinds this module stores in its
keyword-argument dictionaries. -/
inductive Value where
  | bool (b : Bool)
  | nat (n : Nat)
  | str (s : String)
  deriving DecidableEq

/-- Python truthiness of a `Value` (what `if v:` tests). -/
def truthy : Value → Bool
  | .bool b => b
  | .nat n => n != 0
  | .str s => s != ""

/-- A python `dict` with string keys, represented by its insertion history:
a later pair for the same key overrides an earlier one, so `{**a, **b}` is
plain list append. -/
abbrev ConfigDict := List (String × Value)

/-- `d.get(k)` / `d[k]` lookup: the last binding of `k` wins, matching the
association-list representation of dict updates. -/
def dget {α : Type} (d : List (String × α)) (k : String) : Option α :=
  d.foldl (fun acc p => if p.1 = k then some p.2 else acc) none

/-- `d.get(k, default)` followed by a truthiness test, as the module does for
its boolean flags. -/
def getFlag (d : ConfigDict) (k : String) (dflt : Bool) : Bool :=
  match dget d k with
  | some v => truthy v
  | none => dflt

/-- The python exceptions this module (and the attribute/key accesses it
performs) can raise. -/
inductive PyError where
  | keyError (msg : String)
  | attributeError (msg : String)
  | typeError (msg : String)
  | valueError (msg : String)
  | notImplementedError (msg : String)
  | exception (msg : String)
  deriving DecidableEq

/-- The warnings the modelled code can emit via `always_warn`. -/
inductive Warning where
  /-- "A Deep Lake dataset was specified in the cfg as well as in the dataset
  input to train_detector. ..." -/
  | dsSpecifiedInCfgAndInput
  /-- "Persistent workers are not supported for OSS dataloader. ..." -/
  | persistentWorkersOSS
  /-- "shuffle argument for validation dataset will be ignored." -/
  | shuffleIgnored
  /-- warning of the external `check_persistent_workers` helper -/
  | persistentWorkersMismatch
  deriving DecidableEq

/-- Per-tensor metadata: `dataset[name].info.class_names`. -/
structure TensorInfo where
  class_names : List String
  deriving DecidableEq

/-- The slice of a Deep Lake dataset object this module touches: its named
tensors (with their `.info`) and the `CLASSES` attribute the integration
assigns onto it. -/
structure Dataset where
  tensors : List (String × TensorInfo)
  CLASSES : Option (List String)
  deriving DecidableEq

/-- The data the constructed loader carries, as far as this module decides
it: which backend, the worker/batch/shuffle/dist settings taken from the
keyword dictionary, the tensor list and the classes written onto
`loader.dataset.CLASSES`. -/
structure Loader where
  implementation : String
  num_workers : Value
  shuffle : Value
  batch_size : Value
  tensors : List String
  dist : Value
  persistent_workers : Bool
  mode : String
  num_gpus : Value
  dataset_CLASSES : List String
  deriving DecidableEq

/-- `build_pipeline`: the configured steps handed to the external `Compose`,
with the file-loading steps dropped (the arrays come from the dataset). -/
def build_pipeline (steps : List String) : List String :=
  steps.filter (fun s => s != "LoadImageFromFile" && s != "LoadAnnotations")

/-- The message of the documented unsupported-combination error. -/
def distPythonMsg : String :=
  "Distributed training is not supported by the python data loader. Set deeplake_dataloader_type='c++' to use the C++ dtaloader instead."

/-- Equality of `Except` results is decidable, so concrete runs of the model
can be checked by `decide`. -/
instance {ε α : Type} [DecidableEq ε] [DecidableEq α] : DecidableEq (Except ε α) := fun x y =>
  match x, y with
  | .error a, .error b =>
    if h : a = b then isTrue (congrArg _ h)
    else isFalse (fun he => h (Except.error.inj he))
  | .ok a, .ok b =>
    if h : a = b then isTrue (congrArg _ h)
    else isFalse (fun he => h (Except.ok.inj he))
  | .error _, .ok _ => isFalse (fun he => Except.noConfusion he)
  | .ok _, .error _ => isFalse (fun he => Except.noConfusion he)

/-- Result of `build_dataloader`: the (possibly mutated) dataset object, the
warnings emitted, and either the loader or the exception raised. -/
structure BuildResult where
  dataset : Dataset
  warnings : List Warning
  loader : Except PyError Loader
  deriving DecidableEq

/-- `build_dataloader`, step for step.  The mutation `dataset.CLASSES =
classes` happens before the distributed/python check; a missing `dist` key
is the `KeyError` of `train_loader_config["dist"]`; `num_workers` and
`batch_size` fall back to `workers_per_gpu` / `samples_per_gpu`; the python
branch warns when `persistent_workers` is set.  The external loader objects
themselves are summarised by the `Loader` record. -/
def build_dataloader (dataset : Dataset) (images_tensor : String)
    (masks_tensor : Option String) (implementation : String)
    (pipeline : List String) (train_loader_config : ConfigDict) : BuildResult :=
  -- classes = dataset[masks_tensor].info.class_names
  match masks_tensor with
  | none => ⟨dataset, [], .error (.typeError "dataset[None]")⟩
  | some mt =>
    match dget dataset.tensors mt with
    | none => ⟨dataset, [], .error (.keyError mt)⟩
    | some info =>
      let classes := info.class_names
      -- dataset.CLASSES = classes
      let dataset := { dataset with CLASSES := some classes }
      let _pipeline := build_pipeline pipeline
      let persistent_workers := getFlag train_loader_config "persistent_workers" false
      -- ignore_index / reduce_zero_label are read here and passed through to
      -- the wrapped MMSegDataset; they do not steer the construction.
      -- dist = train_loader_config["dist"]
      match dget train_loader_config "dist" with
      | none => ⟨dataset, [], .error (.keyError "dist")⟩
      | some distV =>
        if truthy distV ∧ implementation = "python" then
          ⟨dataset, [], .error (.notImplementedError distPythonMsg)⟩
        else
          -- transform_fn = partial(transform, ...): see `transform_input`.
          -- num_workers = .get("num_workers"), falling back to
          -- ["workers_per_gpu"] (KeyError when both are missing)
          match (dget train_loader_config "num_workers").orElse
              (fun _ => dget train_loader_config "workers_per_gpu") with
          | none => ⟨dataset, [], .error (.keyError "workers_per_gpu")⟩
          | some num_workers =>
            let shuffle := (dget train_loader_config "shuffle").getD (.bool true)
            let tensors := [images_tensor, mt]
            -- batch_size = .get("batch_size"), falling back to
            -- ["samples_per_gpu"]
            match (dget train_loader_config "batch_size").orElse
                (fun _ => dget train_loader_config "samples_per_gpu") with
            | none => ⟨dataset, [], .error (.keyError "samples_per_gpu")⟩
            | some batch_size =>
              let mode :=
                match dget train_loader_config "mode" with
                | some (.str s) => s
                | _ => "train"
              let warns :=
                if implementation = "python" ∧ persistent_workers then
                  [Warning.persistentWorkersOSS]
                else []
              -- both branches construct an MMSegDataset reading
              -- train_loader_config["num_gpus"]
              match dget train_loader_config "num_gpus" with
              | none => ⟨dataset, warns, .error (.keyError "num_gpus")⟩
              | some num_gpus =>
                ⟨dataset, warns, .ok
                  { implementation := implementation
                    num_workers := num_workers
                    shuffle := shuffle
                    batch_size := batch_size
                    tensors := tensors
                    dist := distV
                    persistent_workers := persistent_workers
                    mode := mode
                    num_gpus := num_gpus
                    -- loader.dataset.CLASSES = classes
                    dataset_CLASSES := classes }⟩

/-- C1: when the `dist` flag in the loader configuration is truthy and the
selected implementation is the non-accelerated "python" loader, the call
(one whose mask-tensor lookup and required `dist` key are in place) raises
the documented `NotImplementedError` and returns no loader. -/
theorem build_dataloader_dist_python_raises
    (dataset : Dataset) (images_tensor mt : String) (pipeline : List String)
    (cfg : ConfigDict) (info : TensorInfo) (v : Value)
    (hmt : dget dataset.tensors mt = some info)
    (hdist : dget cfg "dist" = some v) (hv : truthy v = true) :
    (build_dataloader dataset images_tensor (some mt) "python" pipeline cfg).loader
      = .error (.notImplementedError distPythonMsg) := by
  unfold build_dataloader
  simp [hmt, hdist, hv]

/-- Witness for C1 at a concrete call. -/
theorem build_dataloader_dist_python_raises_witness :
    (build_dataloader ⟨[("m", ⟨["cat"]⟩)], none⟩ "i" (some "m") "python" []
        [("dist", Value.bool true)]).loader
      = .error (.notImplementedError distPythonMsg) :=
  build_dataloader_dist_python_raises _ _ _ _ _ ⟨["cat"]⟩ (Value.bool true)
    (by decide) (by decide) (by decide)

/-- C7 counterexample: a concrete call hitting the distributed/python error
in which the dataset object is modified before the error is raised — its
`CLASSES` field, `None` on entry, holds the mask tensor's class names on
exit, so the claim that no field of the dataset is modified is false. -/
theorem build_dataloader_dist_python_mutates_counterexample :
    ((build_dataloader ⟨[("gt", ⟨["sky", "road"]⟩)], none⟩ "img" (some "gt")
        "python" [] [("dist", Value.bool true)]).loader
      = .error (.notImplementedError distPythonMsg))
    ∧ (build_dataloader ⟨[("gt", ⟨["sky", "road"]⟩)], none⟩ "img" (some "gt")
        "python" [] [("dist", Value.bool true)]).dataset
      ≠ ⟨[("gt", ⟨["sky", "road"]⟩)], none⟩
    ∧ (build_dataloader ⟨[("gt", ⟨["sky", "road"]⟩)], none⟩ "img" (some "gt")
        "python" [] [("dist", Value.bool true)]).dataset.CLASSES
      = some ["sky", "road"] := by decide

/-- C7 amended: when `build_dataloader` raises the unsupported
distributed/python-combination error, no loader is constructed and no
warning is emitted, but the dataset is not left unchanged: exactly one
modification has happened — its `CLASSES` field was assigned the mask
tensor's class-name list (the assignment precedes the check); every other
field of the dataset keeps its input value. -/
theorem build_dataloader_dist_python_sets_only_CLASSES
    (dataset : Dataset) (images_tensor mt : String) (pipeline : List String)
    (cfg : ConfigDict) (info : TensorInfo) (v : Value)
    (hmt : dget dataset.tensors mt = some info)
    (hdist : dget cfg "dist" = some v) (hv : truthy v = true) :
    build_dataloader dataset images_tensor (some mt) "python" pipeline cfg
      = ⟨{ dataset with CLASSES := some info.class_names }, [],
         .error (.notImplementedError distPythonMsg)⟩ := by
  unfold build_dataloader
  simp [hmt, hdist, hv]

/-- Witness for the amended C7 at a concrete call. -/
theorem build_dataloader_dist_python_sets_only_CLASSES_witness :
    build_dataloader ⟨[("seg", ⟨["bg"]⟩)], some ["old"]⟩ "pic" (some "seg")
        "python" ["Resize"] [("x", Value.nat 3), ("dist", Value.nat 2)]
      = ⟨⟨[("seg", ⟨["bg"]⟩)], some ["bg"]⟩, [],
         .error (.notImplementedError distPythonMsg)⟩ :=
  build_dataloader_dist_python_sets_only_CLASSES _ _ _ _ _ ⟨["bg"]⟩
    (Value.nat 2) (by decide) (by decide) (by decide)

/-- Python's `str.lower()` (over the character data, so concrete runs
reduce). -/
def pyLower (s : String) : String := ⟨s.data.map Char.toLower⟩

/-- The message of the `ValueError` for an unsupported
`deeplake_dataloader_type`. -/
def dlTypeMsg : String :=
  "`deeplake_dataloader_type` should be one of ['auto', 'c++', 'python']."

/-- The resolution of the lower-cased `deeplake_dataloader_type` flag
before the membership check: "auto" asks `indra_available()`, "cpp" is an
alias of "c++", anything else is passed through. -/
def resolved_dl_impl (flag : String) (indra_available : Bool) : String :=
  let dl_impl := pyLower flag
  if dl_impl = "auto" then (if indra_available then "c++" else "python")
  else if dl_impl = "cpp" then "c++"
  else dl_impl

/-- The backend selection of `_train_segmentor`: the resolved flag must be
"c++" or "python", otherwise the `ValueError` naming the accepted values is
raised. -/
def resolve_dl_impl (flag : String) (indra_available : Bool) :
    Except PyError String :=
  if resolved_dl_impl flag indra_available ≠ "c++"
      ∧ resolved_dl_impl flag indra_available ≠ "python" then
    .error (.valueError dlTypeMsg)
  else .ok (resolved_dl_impl flag indra_available)

/-- C6: the backend is chosen from the case-insensitively compared flag:
"auto" resolves to the C++ backend exactly when `indra_available()` holds
and to the python backend otherwise, "cpp" resolves to the C++ backend, and
any flag whose resolution is neither "c++" nor "python" raises the
`ValueError` naming the accepted values. -/
theorem resolve_dl_impl_selection (flag : String) (indra : Bool) :
    (pyLower flag = "auto" →
      resolve_dl_impl flag indra = .ok (if indra then "c++" else "python"))
    ∧ (pyLower flag = "cpp" → resolve_dl_impl flag indra = .ok "c++")
    ∧ (resolved_dl_impl flag indra ≠ "c++" →
        resolved_dl_impl flag indra ≠ "python" →
        resolve_dl_impl flag indra = .error (.valueError dlTypeMsg)) := by
  refine ⟨fun h => ?_, fun h => ?_, fun h1 h2 => ?_⟩
  · cases indra <;> simp [resolve_dl_impl, resolved_dl_impl, h]
  · by_cases ha : pyLower flag = "auto"
    · rw [ha] at h; exact absurd h (by decide)
    · simp [resolve_dl_impl, resolved_dl_impl, h, ha]
  · simp only [resolve_dl_impl]
    rw [if_pos ⟨h1, h2⟩]

/-- Witness for C6 at concrete flags: a mixed-case "Auto" without indra, a
mixed-case "CPP", and an unsupported "gpu". -/
theorem resolve_dl_impl_selection_witness :
    resolve_dl_impl "Auto" false = .ok "python"
    ∧ resolve_dl_impl "CPP" true = .ok "c++"
    ∧ resolve_dl_impl "gpu" false = .error (.valueError dlTypeMsg) :=
  ⟨by simpa using (resolve_dl_impl_selection "Auto" false).1 (by decide),
   (resolve_dl_impl_selection "CPP" true).2.1 (by decide),
   (resolve_dl_impl_selection "gpu" false).2.2 (by decide) (by decide)⟩

/-- Python truthiness of an optional string (mmcv config entries such as
`deeplake_path`: `None` and the empty string are falsy). -/
def strTruthy (o : Option String) : Bool := o.getD "" != ""

/-- One entry of `cfg.data` (`train` or `val`): the keys this module reads
from it. -/
structure CfgDataEntry where
  deeplake_path : Option String := none
  deeplake_tensors : List (String × String) := []
  deeplake_dataloader : ConfigDict := []
  deriving DecidableEq

/-- The `cfg.data` section.  A missing `val` key raises `AttributeError` on
attribute access (mmcv `ConfigDict` semantics), which the model renders by
`val : Option _`. -/
structure CfgData where
  train : CfgDataEntry
  val : Option CfgDataEntry := none
  train_dataloader : ConfigDict := []
  samples_per_gpu : Option Nat := none
  workers_per_gpu : Option Nat := none
  deriving DecidableEq

/-- The configuration keys `_train_segmentor` reads.  `seed` and `gpu_ids`
are accessed unconditionally, so the model keeps them as plain fields. -/
structure Cfg where
  data : CfgData
  deeplake_dataloader_type : Option String := none
  ignore_index : Option Nat := none
  reduce_zero_label : Option Bool := none
  gpu_ids : List Nat := [0]
  seed : Nat := 0
  /-- `cfg.runner["type"]`; `none` models `"runner" not in cfg`. -/
  runner : Option String := none
  train_pipeline : List String := []
  test_pipeline : List String := []
  deriving DecidableEq

/-- The external collaborators `_train_segmentor` calls into: the
enterprise-loader availability probe, the dataset loader, the
htype-directed tensor search and the pipeline collect keys. -/
structure Externals where
  indra_available : Bool
  load_ds_from_cfg : CfgDataEntry → Dataset
  /-- `find_tensor_with_htype(ds, "image", "img")` -/
  find_image_tensor : Dataset → String
  /-- `find_tensor_with_htype(ds, htype="segment_mask", mm_class="gt_semantic_seg")` -/
  find_seg_tensor : Dataset → String
  /-- `get_collect_keys(cfg)` -/
  collect_keys : List String

/-- `check_persistent_workers` from `deeplake.integrations.mm.mm_common`
(outside this repository slice): it only warns when the two flags
disagree. -/
def check_persistent_workers (train_pw val_pw : Bool) : List Warning :=
  if train_pw != val_pw then [Warning.persistentWorkersMismatch] else []

/-- The documented message of the missing-validation-dataset error. -/
def valNotSpecifiedMsg : String :=
  "Validation dataset is not specified even though validate = True. Please set validate = False or specify a validation dataset."

/-- The training-tensor selection (lines 452-464): a truthy tensors dict
supplies `img` (`KeyError` when missing) and `gt_semantic_seg`; otherwise
the tensors are searched by htype, the mask only when the pipeline collects
`gt_semantic_seg`. -/
def select_tensors (ext : Externals) (tensors_dict : Option (List (String × String)))
    (ds : Dataset) : Except PyError (String × Option String) :=
  match tensors_dict with
  | some d =>
    if d ≠ [] then
      match dget d "img" with
      | none => .error (.keyError "img")
      | some img => .ok (img, dget d "gt_semantic_seg")
    else
      .ok (ext.find_image_tensor ds,
        if "gt_semantic_seg" ∈ ext.collect_keys then some (ext.find_seg_tensor ds)
        else none)
  | none =>
    .ok (ext.find_image_tensor ds,
      if "gt_semantic_seg" ∈ ext.collect_keys then some (ext.find_seg_tensor ds)
      else none)

/-- The validation part of `_train_segmentor` (lines 567-644), entered when
`validate` is set: the default arguments are merged after the user's
`deeplake_dataloader` dict; `cfg.data.val` is attribute-accessed before the
explicit checks, so a missing entry raises `AttributeError` there; a
present entry with no `deeplake_path` raises the documented exception; the
validation masks tensor comes from `ds_train_tensors`, the images tensor
from `ds_val_tensors`. -/
def val_dataloader_default_args (batch_size num_workers : Nat)
    (distributed : Bool) (num_gpus ignore_index : Nat)
    (reduce_zero_label : Bool) : ConfigDict :=
  [("samples_per_gpu", .nat batch_size),
   ("workers_per_gpu", .nat num_workers),
   ("dist", .bool distributed),
   ("shuffle", .bool false),
   ("mode", .str "val"),
   ("num_gpus", .nat num_gpus),
   ("ignore_index", .nat ignore_index),
   ("reduce_zero_label", .bool reduce_zero_label)]

/-- The validation tensor selection (lines 616-626): for a truthy (resolved)
`ds_val_tensors` dict, the images tensor is `ds_val_tensors["img"]` but the
masks tensor is `ds_train_tensors.get("gt_semantic_seg")` — read from the
training tensors dict; otherwise both are searched by htype on the
validation dataset. -/
def select_val_tensors (ext : Externals)
    (ds_train_tensors dvt : Option (List (String × String))) (dsv : Dataset) :
    Except PyError (String × Option String) :=
  match dvt with
  | some d =>
    if d ≠ [] then
      match dget d "img" with
      | none => .error (.keyError "img")
      | some img =>
        match ds_train_tensors with
        | none => .error (.attributeError "get")   -- None.get(...)
        | some td => .ok (img, dget td "gt_semantic_seg")
    else select_tensors ext (some d) dsv
  | none => select_tensors ext none dsv

def val_section (ext : Externals) (cfg : Cfg)
    (ds_train_tensors : Option (List (String × String)))
    (ds_val : Option Dataset) (ds_val_tensors : Option (List (String × String)))
    (distributed : Bool) (dl_impl : String)
    (batch_size num_workers ignore_index : Nat) (reduce_zero_label : Bool)
    (train_loader_cfg : ConfigDict) : List Warning × Except PyError Loader :=
  -- val_dataloader_args = {**cfg.data.val.get("deeplake_dataloader", {}),
  --                        **val_dataloader_default_args}
  match cfg.data.val with
  | none => ([], .error (.attributeError "val"))
  | some valEntry =>
    let val_dataloader_args := valEntry.deeplake_dataloader
      ++ val_dataloader_default_args batch_size num_workers distributed
           cfg.gpu_ids.length ignore_index reduce_zero_label
    let train_persistent_workers := getFlag train_loader_cfg "persistent_workers" false
    let val_persistent_workers := getFlag val_dataloader_args "persistent_workers" false
    let w1 := check_persistent_workers train_persistent_workers val_persistent_workers
    let w2 :=
      if getFlag val_dataloader_args "shuffle" false then [Warning.shuffleIgnored]
      else []
    -- ds_val resolution (lines 591-614); when a dataset input and a config
    -- path are both given, line 607 warns before the tensors are selected
    let w3 : List Warning :=
      match ds_val with
      | none => []
      | some _ =>
        if valEntry.deeplake_path ≠ none then [Warning.dsSpecifiedInCfgAndInput]
        else []
    let resolvedVal : Except PyError (Dataset × Option (List (String × String))) :=
      match ds_val with
      | none =>
        match cfg.data.val with   -- cfg.data.get("val"), re-read at line 592
        | none => .error (.exception valNotSpecifiedMsg)
        | some v =>
          if v.deeplake_path = none then .error (.exception valNotSpecifiedMsg)
          else .ok (ext.load_ds_from_cfg v, some v.deeplake_tensors)
      | some dsv => .ok (dsv, ds_val_tensors)
    match resolvedVal with
    | .error e => (w1 ++ w2, .error e)
    | .ok (dsv, dvt) =>
      match select_val_tensors ext ds_train_tensors dvt dsv with
      | .error e => (w1 ++ w2 ++ w3, .error e)
      | .ok (val_images_tensor, val_masks_tensor) =>
        let b := build_dataloader dsv val_images_tensor val_masks_tensor dl_impl
                   cfg.test_pipeline val_dataloader_args
        (w1 ++ w2 ++ w3 ++ b.warnings, b.loader)
        -- the loader is then handed to the (Dist)EvalHook: external

/-- `ds_train[train_masks_tensor].info.class_names` (line 466): indexing by
`None` or by a missing tensor name raises. -/
def model_classes (ds : Dataset) (masks_tensor : Option String) :
    Except PyError (List String) :=
  match masks_tensor with
  | none => .error (.typeError "dataset[None]")
  | some t =>
    match dget ds.tensors t with
    | none => .error (.keyError t)
    | some info => .ok info.class_names

/-- What `_train_segmentor` produces, as far as this module decides it:
the resolved backend, the classes written onto `model.CLASSES`, the train
loader and (when validating) the validation loader. -/
structure TrainResult where
  dl_impl : String
  model_CLASSES : List String
  data_loader : Loader
  val_loader : Option Loader
  deriving DecidableEq

/-- `_train_segmentor` (lines 408-673): configuration defaults, dataset and
tensor resolution, backend selection, the train loader, and the validation
section.  Model/optimizer/runner wiring and the hook registrations are
external calls that neither read nor write the modelled state. -/
def _train_segmentor (ext : Externals) (cfg : Cfg)
    (ds_train : Option Dataset) (ds_train_tensors : Option (List (String × String)))
    (ds_val : Option Dataset) (ds_val_tensors : Option (List (String × String)))
    (distributed : Bool) (validate : Bool) :
    List Warning × Except PyError TrainResult :=
  let batch_size := cfg.data.samples_per_gpu.getD 256
  let num_workers := cfg.data.workers_per_gpu.getD 1
  let ignore_index := cfg.ignore_index.getD 255
  let reduce_zero_label := cfg.reduce_zero_label.getD false
  -- ds_train / ds_train_tensors resolution (lines 428-436)
  match
    (match ds_train with
     | none =>
       (ext.load_ds_from_cfg cfg.data.train, some cfg.data.train.deeplake_tensors,
        ([] : List Warning))
     | some ds =>
       (ds, ds_train_tensors,
        if strTruthy cfg.data.train.deeplake_path then [Warning.dsSpecifiedInCfgAndInput]
        else [])) with
  | (ds_train, ds_train_tensors, w0) =>
    match resolve_dl_impl (cfg.deeplake_dataloader_type.getD "auto") ext.indra_available with
    | .error e => (w0, .error e)
    | .ok dl_impl =>
      match select_tensors ext ds_train_tensors ds_train with
      | .error e => (w0, .error e)
      | .ok (train_images_tensor, train_masks_tensor) =>
        -- model.CLASSES = ds_train[train_masks_tensor].info.class_names
        match model_classes ds_train train_masks_tensor with
        | .error e => (w0, .error e)
        | .ok model_CLASSES =>
          let runner_type := cfg.runner.getD "EpochBasedRunner"
          let train_dataloader_default_args : ConfigDict :=
            [("samples_per_gpu", .nat batch_size),
             ("workers_per_gpu", .nat num_workers),
             ("num_gpus", .nat cfg.gpu_ids.length),
             ("dist", .bool distributed),
             ("seed", .nat cfg.seed),
             ("runner_type", .str runner_type),
             ("ignore_index", .nat ignore_index),
             ("reduce_zero_label", .bool reduce_zero_label)]
          let train_loader_cfg :=
            train_dataloader_default_args ++ cfg.data.train_dataloader
              ++ cfg.data.train.deeplake_dataloader
          -- model placement (build_dp / build_ddp), optimizer and runner
          -- construction, hook registration: external calls
          let b := build_dataloader ds_train train_images_tensor train_masks_tensor
                     dl_impl cfg.train_pipeline train_loader_cfg
          match b.loader with
          | .error e => (w0 ++ b.warnings, .error e)
          | .ok data_loader =>
            if validate then
              match val_section ext cfg ds_train_tensors ds_val ds_val_tensors
                      distributed dl_impl batch_size num_workers ignore_index
                      reduce_zero_label train_loader_cfg with
              | (wv, .error e) => (w0 ++ b.warnings ++ wv, .error e)
              | (wv, .ok val_loader) =>
                (w0 ++ b.warnings ++ wv,
                 .ok ⟨dl_impl, model_CLASSES, data_loader, some val_loader⟩)
            else
              (w0 ++ b.warnings, .ok ⟨dl_impl, model_CLASSES, data_loader, none⟩)

theorem select_tensors_err (ext : Externals)
    (td : Option (List (String × String))) (ds : Dataset) (e : PyError)
    (h : select_tensors ext td ds = .error e) : e = .keyError "img" := by
  unfold select_tensors at h
  repeat' split at h
  all_goals simp_all

theorem model_classes_not_exception (ds : Dataset) (mt : Option String)
    (m : String) : model_classes ds mt ≠ .error (.exception m) := by
  unfold model_classes
  repeat' split <;> simp

theorem build_dataloader_not_exception (ds : Dataset) (it : String)
    (mt : Option String) (impl : String) (pl : List String) (cfg : ConfigDict)
    (m : String) :
    (build_dataloader ds it mt impl pl cfg).loader ≠ .error (.exception m) := by
  unfold build_dataloader
  repeat' split
  all_goals simp

theorem resolve_dl_impl_ne_exception (flag : String) (ia : Bool) (m : String) :
    resolve_dl_impl flag ia ≠ .error (.exception m) := by
  intro h
  unfold resolve_dl_impl at h
  split at h <;> simp_all

theorem select_tensors_ne_exception (ext : Externals)
    (td : Option (List (String × String))) (ds : Dataset) (m : String) :
    select_tensors ext td ds ≠ .error (.exception m) := by
  unfold select_tensors
  repeat' split
  all_goals simp

theorem train_segmentor_no_validate_not_exception (ext : Externals) (cfg : Cfg)
    (dst : Option Dataset) (dstt : Option (List (String × String)))
    (dsv : Option Dataset) (dsvt : Option (List (String × String)))
    (distributed : Bool) (m : String) :
    (_train_segmentor ext cfg dst dstt dsv dsvt distributed false).2
      ≠ .error (.exception m) := by
  unfold _train_segmentor
  repeat' split
  all_goals intro hsub
  all_goals
    first
    | (simp_all [resolve_dl_impl_ne_exception, select_tensors_ne_exception,
                 model_classes_not_exception, build_dataloader_not_exception]
       done)
    | (simp at hsub
       split at hsub
       all_goals simp_all [build_dataloader_not_exception])

theorem foldl_dget {α : Type} (d : List (String × α)) (k : String) (acc : Option α) :
    d.foldl (fun a p => if p.1 = k then some p.2 else a) acc
      = (dget d k).elim acc some := by
  induction d generalizing acc with
  | nil => rfl
  | cons p tl ih =>
    show tl.foldl _ (if p.1 = k then some p.2 else acc) = _
    rw [ih]
    have hd : dget (p :: tl) k
        = (dget tl k).elim (if p.1 = k then some p.2 else none) some := by
      show tl.foldl _ (if p.1 = k then some p.2 else none) = _
      rw [ih]
    rw [hd]
    cases hk : dget tl k
    · simp only [Option.elim]
      split <;> rfl
    · rfl

/-- Python dict-merge lookup: in `{**d1, **d2}` a key of `d2` wins. -/
theorem dget_append {α : Type} (d1 d2 : List (String × α)) (k : String) :
    dget (d1 ++ d2) k = (dget d2 k).elim (dget d1 k) some := by
  show (d1 ++ d2).foldl _ none = _
  rw [List.foldl_append]
  rw [foldl_dget]
  rfl

/-- The merged validation-loader arguments always bind `shuffle` to
`False`: the defaults are merged after the user dict. -/
theorem val_args_shuffle_false (user : ConfigDict) (bs nw : Nat) (dist : Bool)
    (ng ii : Nat) (rz : Bool) :
    dget (user ++ val_dataloader_default_args bs nw dist ng ii rz) "shuffle"
      = some (.bool false) := by
  rw [dget_append]; rfl

theorem val_section_missing_val (ext : Externals) (cfg : Cfg)
    (dstt : Option (List (String × String))) (dsv : Option Dataset)
    (dsvt : Option (List (String × String))) (dist : Bool) (impl : String)
    (bs nw ii : Nat) (rz : Bool) (tlc : ConfigDict)
    (h : cfg.data.val = none) :
    val_section ext cfg dstt dsv dsvt dist impl bs nw ii rz tlc
      = ([], .error (.attributeError "val")) := by
  unfold val_section
  rw [h]

theorem val_section_no_path (ext : Externals) (cfg : Cfg)
    (dstt : Option (List (String × String)))
    (dsvt : Option (List (String × String))) (dist : Bool) (impl : String)
    (bs nw ii : Nat) (rz : Bool) (tlc : ConfigDict) (v : CfgDataEntry)
    (h : cfg.data.val = some v) (hp : v.deeplake_path = none) :
    (val_section ext cfg dstt none dsvt dist impl bs nw ii rz tlc).2
      = .error (.exception valNotSpecifiedMsg) := by
  unfold val_section
  rw [h]
  simp [hp]

/-- A small concrete dataset for witnesses: an image tensor "i" and a mask
tensor "m" with two classes. -/
def exDataset : Dataset := ⟨[("i", ⟨["a"]⟩), ("m", ⟨["x", "y"]⟩)], none⟩

/-- Concrete external collaborators for witnesses. -/
def exExternals : Externals :=
  { indra_available := false
    load_ds_from_cfg := fun _ => exDataset
    find_image_tensor := fun _ => "i"
    find_seg_tensor := fun _ => "m"
    collect_keys := ["img", "gt_semantic_seg"] }

/-- A configuration whose `data` section has no `val` entry. -/
def exCfgNoVal : Cfg := { data := { train := {} } }

/-- C2 (amended): with `validate=False` the missing-validation-dataset
exception is never raised; with `validate=True` and no `ds_val` argument,
a `cfg.data.val` entry that lacks `deeplake_path` raises the documented
exception in the validation section before any validation dataloader is
built, while a configuration with no `cfg.data.val` entry at all raises an
`AttributeError` at the earlier attribute access `cfg.data.val` (not the
documented exception), likewise before any validation dataloader is
built. -/
theorem train_segmentor_validation_missing (ext : Externals) (cfg : Cfg)
    (dst : Option Dataset) (dstt dsvt : Option (List (String × String)))
    (dsv : Option Dataset) (distributed : Bool) (dl_impl : String)
    (bs nw ii : Nat) (rz : Bool) (tlc : ConfigDict) :
    ((_train_segmentor ext cfg dst dstt dsv dsvt distributed false).2
        ≠ .error (.exception valNotSpecifiedMsg))
    ∧ (cfg.data.val = none →
        val_section ext cfg dstt none dsvt distributed dl_impl bs nw ii rz tlc
          = ([], .error (.attributeError "val")))
    ∧ (∀ v, cfg.data.val = some v → v.deeplake_path = none →
        (val_section ext cfg dstt none dsvt distributed dl_impl bs nw ii rz tlc).2
          = .error (.exception valNotSpecifiedMsg)) :=
  ⟨train_segmentor_no_validate_not_exception ext cfg dst dstt dsv dsvt
      distributed valNotSpecifiedMsg,
   fun h => val_section_missing_val ext cfg dstt none dsvt distributed dl_impl
      bs nw ii rz tlc h,
   fun v h hp => val_section_no_path ext cfg dstt dsvt distributed dl_impl
      bs nw ii rz tlc v h hp⟩

/-- Witness for the amended C2 at concrete inputs: one configuration with no
`val` entry and one whose `val` entry lacks `deeplake_path`. -/
theorem train_segmentor_validation_missing_witness :
    (val_section exExternals exCfgNoVal none none none false "python" 1 1 255
        false [] = ([], .error (.attributeError "val")))
    ∧ ((val_section exExternals
          { data := { train := {}, val := some {} } } none none none false
          "python" 1 1 255 false []).2
        = .error (.exception valNotSpecifiedMsg)) :=
  ⟨(train_segmentor_validation_missing exExternals exCfgNoVal none none none
      none false "python" 1 1 255 false []).2.1 rfl,
   (train_segmentor_validation_missing exExternals
      { data := { train := {}, val := some {} } } none none none
      none false "python" 1 1 255 false []).2.2 {} rfl rfl⟩

/-- C2 counterexample: a concrete `_train_segmentor` call with
`validate=True`, no `ds_val`, and no `cfg.data.val` entry raises an
`AttributeError`, not an `Exception` carrying the documented message, so
the claim as stated fails on the missing-entry case. -/
theorem train_segmentor_validation_missing_counterexample :
    ((_train_segmentor exExternals exCfgNoVal (some exDataset)
        (some [("img", "i"), ("gt_semantic_seg", "m")]) none none false true).2
      = .error (.attributeError "val"))
    ∧ PyError.attributeError "val" ≠ .exception valNotSpecifiedMsg := by
  constructor
  · rfl
  · decide

theorem check_persistent_workers_not_shuffle (a b : Bool) :
    Warning.shuffleIgnored ∉ check_persistent_workers a b := by
  unfold check_persistent_workers
  split <;> simp

theorem build_dataloader_warnings_not_shuffle (ds : Dataset) (it : String)
    (mt : Option String) (impl : String) (pl : List String) (cfg : ConfigDict) :
    Warning.shuffleIgnored ∉ (build_dataloader ds it mt impl pl cfg).warnings := by
  unfold build_dataloader
  repeat' split
  all_goals simp

theorem build_dataloader_ok_shuffle (ds : Dataset) (it : String)
    (mt : Option String) (impl : String) (pl : List String) (cfg : ConfigDict)
    (l : Loader) (h : (build_dataloader ds it mt impl pl cfg).loader = .ok l) :
    l.shuffle = (dget cfg "shuffle").getD (.bool true) := by
  unfold build_dataloader at h
  repeat' split at h
  all_goals try (injection h with h)
  all_goals first | (subst h; rfl) | simp_all

/-- C9: the validation dataloader of `_train_segmentor` always uses
`shuffle=False`, whatever `shuffle` value the user placed in
`cfg.data.val`'s `deeplake_dataloader` section: the defaults are merged
after the user's dict and override it, so the merged arguments bind
`shuffle` to `False`, the warning that the validation shuffle argument
will be ignored is never emitted, and a successfully built validation
loader carries `shuffle = False`. -/
theorem val_section_shuffle_false (ext : Externals) (cfg : Cfg)
    (dstt dsvt : Option (List (String × String))) (dsv : Option Dataset)
    (distributed : Bool) (impl : String) (bs nw ii : Nat) (rz : Bool)
    (tlc : ConfigDict) :
    (∀ v, cfg.data.val = some v →
      dget (v.deeplake_dataloader
          ++ val_dataloader_default_args bs nw distributed cfg.gpu_ids.length ii rz)
        "shuffle" = some (.bool false))
    ∧ Warning.shuffleIgnored
        ∉ (val_section ext cfg dstt dsv dsvt distributed impl bs nw ii rz tlc).1
    ∧ (∀ l, (val_section ext cfg dstt dsv dsvt distributed impl bs nw ii rz tlc).2
          = .ok l → l.shuffle = .bool false) := by
  refine ⟨fun v _ => val_args_shuffle_false _ _ _ _ _ _ _, ?_, ?_⟩
  · unfold val_section
    cases hv : cfg.data.val with
    | none => simp
    | some v =>
      have hs : getFlag (v.deeplake_dataloader
          ++ val_dataloader_default_args bs nw distributed cfg.gpu_ids.length ii rz)
          "shuffle" false = false := by
        unfold getFlag
        rw [val_args_shuffle_false]
        rfl
      simp only [hs]
      cases dsv with
      | none =>
        repeat' split
        all_goals try (split_ifs at *)
        all_goals
          simp_all [check_persistent_workers_not_shuffle,
                    build_dataloader_warnings_not_shuffle]
      | some dsvd =>
        repeat' split
        all_goals try (split_ifs at *)
        all_goals
          simp_all [check_persistent_workers_not_shuffle,
                    build_dataloader_warnings_not_shuffle]
  · intro l hl
    unfold val_section at hl
    cases hv : cfg.data.val with
    | none => rw [hv] at hl; exact absurd hl (by simp)
    | some v =>
      rw [hv] at hl
      have hs : getFlag (v.deeplake_dataloader
          ++ val_dataloader_default_args bs nw distributed cfg.gpu_ids.length ii rz)
          "shuffle" false = false := by
        unfold getFlag
        rw [val_args_shuffle_false]
        rfl
      cases dsv with
      | none =>
        simp [hs] at hl
        repeat' split at hl
        all_goals
          first
          | (rw [build_dataloader_ok_shuffle _ _ _ _ _ _ _ hl,
                 val_args_shuffle_false]
             rfl)
          | (exfalso; simp at hl)
      | some dsvd =>
        simp [hs] at hl
        repeat' split at hl
        all_goals
          first
          | (rw [build_dataloader_ok_shuffle _ _ _ _ _ _ _ hl,
                 val_args_shuffle_false]
             rfl)
          | (exfalso; simp at hl)

/-- A configuration whose user `deeplake_dataloader` section for validation
asks for `shuffle=True`. -/
def exCfgShuffle : Cfg :=
  { data := { train := {},
              val := some { deeplake_path := some "p",
                            deeplake_dataloader := [("shuffle", Value.bool true)] } } }

/-- The loader the C9 witness call builds. -/
def exShuffleLoader : Loader :=
  { implementation := "python", num_workers := .nat 3, shuffle := .bool false,
    batch_size := .nat 2, tensors := ["i", "m"], dist := .bool false,
    persistent_workers := false, mode := "val", num_gpus := .nat 1,
    dataset_CLASSES := ["x", "y"] }

/-- Witness for C9 at a concrete call: the user asks for `shuffle=True` in
the validation `deeplake_dataloader` section, yet the merged arguments bind
`shuffle` to `False`, no shuffle warning is emitted, and the built loader
carries `shuffle = False`. -/
theorem val_section_shuffle_false_witness :
    (dget ([("shuffle", Value.bool true)]
        ++ val_dataloader_default_args 2 3 false 1 255 false) "shuffle"
      = some (.bool false))
    ∧ Warning.shuffleIgnored ∉ (val_section exExternals exCfgShuffle
        (some [("img", "i"), ("gt_semantic_seg", "m")]) (some exDataset)
        (some [("img", "i")]) false "python" 2 3 255 false []).1
    ∧ exShuffleLoader.shuffle = .bool false :=
  ⟨(val_section_shuffle_false exExternals exCfgShuffle
      (some [("img", "i"), ("gt_semantic_seg", "m")]) (some [("img", "i")])
      (some exDataset) false "python" 2 3 255 false []).1 _ rfl,
   (val_section_shuffle_false exExternals exCfgShuffle
      (some [("img", "i"), ("gt_semantic_seg", "m")]) (some [("img", "i")])
      (some exDataset) false "python" 2 3 255 false []).2.1,
   (val_section_shuffle_false exExternals exCfgShuffle
      (some [("img", "i"), ("gt_semantic_seg", "m")]) (some [("img", "i")])
      (some exDataset) false "python" 2 3 255 false []).2.2 exShuffleLoader
     (by decide)⟩

/-- C10: when the resolved validation tensors dict is non-empty, the
validation images tensor is `ds_val_tensors["img"]`, but the validation
masks tensor is `ds_train_tensors.get("gt_semantic_seg")`, read from the
training tensors dict — whatever `gt_semantic_seg` entry the validation
dict itself may contain. -/
theorem select_val_tensors_masks_from_train (ext : Externals)
    (td d : List (String × String)) (dsv : Dataset) (img : String)
    (hd : d ≠ []) (himg : dget d "img" = some img) :
    select_val_tensors ext (some td) (some d) dsv
      = .ok (img, dget td "gt_semantic_seg") := by
  unfold select_val_tensors
  simp [hd, himg]

/-- Witness for C10 at a concrete call: the validation dict binds
`gt_semantic_seg` to "vm", yet the masks tensor used is the training
dict's "tm". -/
theorem select_val_tensors_masks_from_train_witness :
    select_val_tensors exExternals
        (some [("img", "ti"), ("gt_semantic_seg", "tm")])
        (some [("img", "vi"), ("gt_semantic_seg", "vm")]) exDataset
      = .ok ("vi", some "tm") :=
  select_val_tensors_masks_from_train exExternals
    [("img", "ti"), ("gt_semantic_seg", "tm")]
    [("img", "vi"), ("gt_semantic_seg", "vm")] exDataset "vi"
    (by decide) (by decide)

/-- `l[start::step]`, the python slice with a positive step: the elements at
indices `start, start+step, start+2*step, ...`, in index order. -/
def strideSlice {α : Type} (l : List α) (start step : Nat) : List α :=
  (l.enum.filter
    (fun p => decide (start ≤ p.1) && decide ((p.1 - start) % step = 0))).map
    Prod.snd

/-- Lines 222-226 of `MMSegDataset.evaluate`: with more than one GPU, the
results list is rebuilt by concatenating the strided slices
`results[i::num_gpus]` for `i = 0 .. num_gpus-1`; otherwise it is used as
given. -/
def resultsReorder {α : Type} (num_gpus : Nat) (results : List α) : List α :=
  if 1 < num_gpus then
    (List.range num_gpus).flatMap (fun i => strideSlice results i num_gpus)
  else results

/-- The `metric` argument of `evaluate`: a single name or a list of names. -/
inductive MetricArg where
  | str (s : String)
  | list (l : List String)

/-- `if isinstance(metric, str): metric = [metric]`. -/
def metricList : MetricArg → List String
  | .str s => [s]
  | .list l => l

def allowed_metrics : List String := ["mIoU", "mDice", "mFscore"]

/-- Python's repr of a list of strings, as `"metric {} is not
supported".format(metric)` renders it. -/
def formatStrList (l : List String) : String :=
  "[" ++ String.intercalate ", " (l.map (fun s => "'" ++ s ++ "'")) ++ "]"

def metricKeyErrorMsg (metric : List String) : String :=
  "metric " ++ formatStrList metric ++ " is not supported"

/-- Round to the nearest integer, ties to even (numpy rounding). -/
def roundHalfEven (x : ℚ) : ℤ :=
  if x - ⌊x⌋ < 1/2 then ⌊x⌋
  else if 1/2 < x - ⌊x⌋ then ⌊x⌋ + 1
  else if 2 ∣ ⌊x⌋ then ⌊x⌋ else ⌊x⌋ + 1

/-- `np.round(y, 2)`: round to two decimal places. -/
def npRound2 (y : ℚ) : ℚ := (roundHalfEven (y * 100) : ℚ) / 100

/-- `np.nanmean`: the mean of the non-NaN entries (`none` models NaN); NaN
when every entry is NaN. -/
def nanmean (vals : List (Option ℚ)) : Option ℚ :=
  let xs := vals.filterMap id
  if xs.length = 0 then none else some (xs.sum / (xs.length : ℚ))

/-- Lines 260-311 of `MMSegDataset.evaluate`: the summary table rounds
`nanmean(v) * 100` to two decimals; `aAcc` is popped from the per-class
table, whose values are `v * 100` rounded to two decimals; the returned
dict gets each summary value under its key (with an `m` prefix except for
`aAcc`) divided by 100, and each per-class value under `Key.classname`
divided by 100.  (The PrettyTable logging is output-only and not
modelled.) -/
def evaluateFormat (ret_metrics : List (String × List (Option ℚ)))
    (class_names : List String) : List (String × Option ℚ) :=
  -- ret_metrics_summary, then the summary loop of eval_results
  (ret_metrics.map
      (fun p => (p.1, (nanmean p.2).map (fun m => npRound2 (m * 100))))).map
    (fun p => (if p.1 = "aAcc" then p.1 else "m" ++ p.1, p.2.map (fun v => v / 100)))
  ++
  -- ret_metrics.pop("aAcc"), ret_metrics_class, then the per-class loop
  (((ret_metrics.filter (fun p => p.1 != "aAcc")).map
      (fun p => (p.1, p.2.map (Option.map (fun v => npRound2 (v * 100)))))).flatMap
    (fun p => class_names.enum.map
      (fun q => (p.1 ++ "." ++ q.2, ((p.2.get? q.1).join).map (fun v => v / 100)))))

/-- `MMSegDataset.evaluate` (lines 204-311): the multi-GPU reordering, the
string-to-list normalisation of `metric`, the allowed-metric check raising
`KeyError`, then the external metric computation (`eval_metrics` /
`pre_eval_to_metrics`, abstracted as `computeMetrics`) followed by the
formatting of the result dict. -/
def evaluate {R : Type} (num_gpus : Nat) (results : List R) (metric : MetricArg)
    (computeMetrics : List R → List String → List (String × List (Option ℚ)))
    (class_names : List String) : Except PyError (List (String × Option ℚ)) :=
  let results := resultsReorder num_gpus results
  let metric := metricList metric
  if ¬ (metric.all (fun m => allowed_metrics.contains m)) then
    .error (.keyError (metricKeyErrorMsg metric))
  else
    .ok (evaluateFormat (computeMetrics results metric) class_names)

/-- C3: `evaluate` raises `KeyError` exactly when the requested metric
names (a string taken as a one-element list, or a list) are not all among
`mIoU`, `mDice`, `mFscore`; the error is raised before any metric
computation (the result is the same `KeyError` for every metric-computing
function), and when every name is allowed no such error is raised. -/
theorem evaluate_metric_check {R : Type} (num_gpus : Nat) (results : List R)
    (metric : MetricArg)
    (cm : List R → List String → List (String × List (Option ℚ)))
    (class_names : List String) :
    ((∃ m ∈ metricList metric, m ∉ allowed_metrics) →
      evaluate num_gpus results metric cm class_names
        = .error (.keyError (metricKeyErrorMsg (metricList metric))))
    ∧ ((∀ m ∈ metricList metric, m ∈ allowed_metrics) →
      evaluate num_gpus results metric cm class_names
        = .ok (evaluateFormat
            (cm (resultsReorder num_gpus results) (metricList metric))
            class_names)) := by
  constructor
  · rintro ⟨m, hm, hnot⟩
    unfold evaluate
    rw [if_pos]
    simp only [List.all_eq_true, not_forall]
    exact ⟨m, by simpa using ⟨hm, by simpa using hnot⟩⟩
  · intro hall
    unfold evaluate
    rw [if_neg]
    simp only [List.all_eq_true, not_not]
    intro m hm
    simpa using hall m hm

/-- Witness for C3: requesting `["mIoU", "recall"]` raises the `KeyError`
(for any metric computation), requesting `"mDice"` does not. -/
theorem evaluate_metric_check_witness :
    (evaluate 1 ([] : List Nat) (.list ["mIoU", "recall"]) (fun _ _ => [])
        ["c"]
      = .error (.keyError (metricKeyErrorMsg ["mIoU", "recall"])))
    ∧ (evaluate 1 ([] : List Nat) (.str "mDice") (fun _ _ => []) ["c"]
      = .ok (evaluateFormat [] ["c"])) :=
  ⟨(evaluate_metric_check 1 [] (.list ["mIoU", "recall"]) (fun _ _ => []) ["c"]).1
      ⟨"recall", by decide, by decide⟩,
   (evaluate_metric_check 1 [] (.str "mDice") (fun _ _ => []) ["c"]).2
      (by decide)⟩

theorem evaluateFormat_mem_summary (rm : List (String × List (Option ℚ)))
    (cn : List String) (key : String) (vals : List (Option ℚ))
    (h : (key, vals) ∈ rm) :
    (if key = "aAcc" then key else "m" ++ key,
      (nanmean vals).map (fun x => npRound2 (x * 100) / 100))
      ∈ evaluateFormat rm cn := by
  unfold evaluateFormat
  refine List.mem_append_left _ ?_
  simp only [List.map_map]
  refine List.mem_map.mpr ⟨(key, vals), h, ?_⟩
  show (if key = "aAcc" then key else "m" ++ key,
      ((nanmean vals).map (fun m => npRound2 (m * 100))).map (fun v => v / 100)) = _
  rw [Option.map_map]
  rfl

theorem evaluateFormat_mem_class (rm : List (String × List (Option ℚ)))
    (cn : List String) (key : String) (vals : List (Option ℚ))
    (idx : Nat) (name : String) (v : Option ℚ)
    (h : (key, vals) ∈ rm) (hk : key ≠ "aAcc")
    (hn : cn.get? idx = some name) (hv : vals.get? idx = some v) :
    (key ++ "." ++ name, v.map (fun x => npRound2 (x * 100) / 100))
      ∈ evaluateFormat rm cn := by
  unfold evaluateFormat
  refine List.mem_append_right _ ?_
  refine List.mem_flatMap.mpr
    ⟨(key, vals.map (Option.map (fun x => npRound2 (x * 100)))), ?_, ?_⟩
  · exact List.mem_map.mpr
      ⟨(key, vals), List.mem_filter.mpr ⟨h, by simp [hk]⟩, rfl⟩
  · refine List.mem_map.mpr ⟨(idx, name), ?_, ?_⟩
    · have he := List.get?_enum cn idx
      rw [hn] at he
      exact List.get?_mem he
    · rw [List.get?_eq_getElem?] at hv
      simp only [List.get?_eq_getElem?, List.getElem?_map, hv,
                 Option.map_some]
      show (key ++ "." ++ name,
          (v.map (fun x => npRound2 (x * 100))).map (fun y => y / 100)) = _
      rw [Option.map_map]
      rfl

/-- C4: for every successful call of `evaluate`, the returned dict holds,
for each metric row `(key, vals)` the external metric computation produced:
its summary entry (under `key` for `aAcc`, else under `"m" ++ key`) equal
to the nan-mean of the per-class values, multiplied by 100, rounded to two
decimals, then divided by 100; and for each class `name` at index `idx`, a
per-class entry under `"key.name"` equal to that class's value multiplied
by 100, rounded to two decimals, then divided by 100. -/
theorem evaluate_entry_values {R : Type} (num_gpus : Nat) (results : List R)
    (metric : MetricArg)
    (cm : List R → List String → List (String × List (Option ℚ)))
    (class_names : List String) (d : List (String × Option ℚ))
    (h : evaluate num_gpus results metric cm class_names = .ok d)
    (key : String) (vals : List (Option ℚ))
    (hmem : (key, vals) ∈ cm (resultsReorder num_gpus results) (metricList metric)) :
    ((if key = "aAcc" then key else "m" ++ key,
        (nanmean vals).map (fun x => npRound2 (x * 100) / 100)) ∈ d)
    ∧ (∀ idx name v, key ≠ "aAcc" → class_names.get? idx = some name →
        vals.get? idx = some v →
        (key ++ "." ++ name, Option.map (fun x => npRound2 (x * 100) / 100) v)
          ∈ d) := by
  have hd : d = evaluateFormat
      (cm (resultsReorder num_gpus results) (metricList metric)) class_names := by
    simp only [evaluate] at h
    split at h
    · exact absurd h (by simp)
    · exact (Except.ok.inj h).symm
  subst hd
  exact ⟨evaluateFormat_mem_summary _ _ _ _ hmem,
         fun idx name v hk hn hv =>
           evaluateFormat_mem_class _ _ _ _ _ _ _ hmem hk hn hv⟩

/-- The per-class metric table of the C4 witness: an `aAcc` scalar and an
`IoU` row with one known class value and one NaN. -/
def exRetMetrics : List (String × List (Option ℚ)) :=
  [("aAcc", [some (1/2)]), ("IoU", [some (1/3), none])]

def exEvalDict : List (String × Option ℚ) := evaluateFormat exRetMetrics ["a", "b"]

/-- Witness for C4 at a concrete successful call: the `IoU` row yields the
summary entry under `mIoU` (the rounded nan-mean over the known class
value) and the NaN class value stays NaN under `IoU.b`. -/
theorem evaluate_entry_values_witness :
    (("mIoU", (nanmean [some (1/3), none]).map
        (fun x => npRound2 (x * 100) / 100)) ∈ exEvalDict)
    ∧ (("IoU.b", (none : Option ℚ)) ∈ exEvalDict) :=
  ⟨(evaluate_entry_values 1 ([] : List Nat) (.str "mIoU")
      (fun _ _ => exRetMetrics) ["a", "b"] exEvalDict rfl "IoU"
      [some (1/3), none] (by simp [exRetMetrics])).1,
   (evaluate_entry_values 1 ([] : List Nat) (.str "mIoU")
      (fun _ _ => exRetMetrics) ["a", "b"] exEvalDict rfl "IoU"
      [some (1/3), none] (by simp [exRetMetrics])).2 1 "b" none
     (by decide) rfl rfl⟩

theorem flatMap_congr {α β : Type} {l : List α} {f g : α → List β}
    (h : ∀ a ∈ l, f a = g a) : l.flatMap f = l.flatMap g := by
  induction l with
  | nil => rfl
  | cons a tl ih =>
    simp only [List.flatMap_cons, h a (List.mem_cons_self a tl),
               ih (fun x hx => h x (List.mem_cons_of_mem _ hx))]

/-- Partitioning a list by a bounded key and concatenating the classes in
key order permutes the list. -/
theorem flatMap_filter_key_perm {β : Type} (m : List β) (g : Nat) (f : β → Nat)
    (hf : ∀ b ∈ m, f b < g) :
    List.Perm ((List.range g).flatMap (fun i => m.filter (fun b => decide (f b = i)))) m := by
  induction m with
  | nil => simp
  | cons b tl ih =>
    have hfb : f b < g := hf b (List.mem_cons_self b tl)
    have htl : ∀ x ∈ tl, f x < g := fun x hx => hf x (List.mem_cons_of_mem _ hx)
    have ihtl := ih htl
    obtain ⟨k, hk⟩ : ∃ k, g = f b + 1 + k := ⟨g - (f b + 1), by omega⟩
    subst hk
    rw [List.range_add, List.range_succ, List.flatMap_append, List.flatMap_append]
      at ihtl ⊢
    have hA : (List.range (f b)).flatMap
          (fun i => (b :: tl).filter (fun x => decide (f x = i)))
        = (List.range (f b)).flatMap (fun i => tl.filter (fun x => decide (f x = i))) := by
      apply flatMap_congr
      intro i hi
      have : ¬ f b = i := by have := List.mem_range.mp hi; omega
      rw [List.filter_cons_of_neg (by simpa using this)]
    have hC : ((List.range k).map (fun x => f b + 1 + x)).flatMap
          (fun i => (b :: tl).filter (fun x => decide (f x = i)))
        = ((List.range k).map (fun x => f b + 1 + x)).flatMap
            (fun i => tl.filter (fun x => decide (f x = i))) := by
      apply flatMap_congr
      intro i hi
      have : ¬ f b = i := by
        obtain ⟨j, -, hj⟩ := List.mem_map.mp hi
        omega
      rw [List.filter_cons_of_neg (by simpa using this)]
    have hMid : ([f b]).flatMap (fun i => (b :: tl).filter (fun x => decide (f x = i)))
        = b :: tl.filter (fun x => decide (f x = f b)) := by
      simp [List.filter_cons_of_pos]
    rw [hA, hC, hMid, List.append_assoc]
    simp only [List.flatMap_cons, List.flatMap_nil, List.append_nil] at ihtl
    refine List.Perm.trans List.perm_middle ?_
    refine List.Perm.cons b ?_
    simpa [List.append_assoc] using ihtl

/-- The concatenation of the strided slices `l[i::g]`, `i = 0 .. g-1`, is a
permutation of `l`. -/
theorem strideSlice_flatMap_perm {α : Type} (l : List α) (g : Nat) (hg : 0 < g) :
    List.Perm ((List.range g).flatMap (fun i => strideSlice l i g)) l := by
  have hrw : (List.range g).flatMap (fun i => strideSlice l i g)
      = (List.range g).flatMap
          (fun i => (l.enum.filter (fun p => decide (p.1 % g = i))).map Prod.snd) := by
    apply flatMap_congr
    intro i hi
    have hig : i < g := List.mem_range.mp hi
    unfold strideSlice
    congr 1
    apply List.filter_congr
    intro p _
    have hiff : (i ≤ p.1 ∧ (p.1 - i) % g = 0) ↔ p.1 % g = i := by
      constructor
      · rintro ⟨hle, hmod⟩
        obtain ⟨q, hq⟩ := Nat.dvd_of_mod_eq_zero hmod
        have hp : p.1 = i + g * q := by omega
        rw [hp, Nat.add_mul_mod_self_left, Nat.mod_eq_of_lt hig]
      · intro hmod
        have hle : i ≤ p.1 := hmod ▸ Nat.mod_le p.1 g
        refine ⟨hle, ?_⟩
        have hdiv : p.1 = g * (p.1 / g) + p.1 % g := (Nat.div_add_mod p.1 g).symm
        have hsub : p.1 - i = g * (p.1 / g) := by omega
        rw [hsub, Nat.mul_mod_right]
    rw [← Bool.decide_and, decide_eq_decide]
    exact hiff
  rw [hrw]
  have hmap : (List.range g).flatMap
        (fun i => (l.enum.filter (fun p => decide (p.1 % g = i))).map Prod.snd)
      = ((List.range g).flatMap
          (fun i => l.enum.filter (fun p => decide (p.1 % g = i)))).map Prod.snd := by
    rw [List.map_flatMap]
  rw [hmap]
  have hperm := flatMap_filter_key_perm l.enum g (fun p => p.1 % g)
    (fun p _ => Nat.mod_lt _ hg)
  have := hperm.map Prod.snd
  rwa [List.enum_map_snd] at this

/-- C8: with more than one GPU, `MMSegDataset.evaluate` reorders the
results into the concatenation of the strided slices
`results[0::num_gpus], ..., results[num_gpus-1::num_gpus]`; this reordering
is a permutation of the input — it preserves the length and the multiset of
elements — and with one GPU the list is used in its original order. -/
theorem resultsReorder_perm {α : Type} (num_gpus : Nat) (results : List α) :
    (1 < num_gpus → resultsReorder num_gpus results
        = (List.range num_gpus).flatMap (fun i => strideSlice results i num_gpus))
    ∧ List.Perm (resultsReorder num_gpus results) results
    ∧ (resultsReorder num_gpus results).length = results.length
    ∧ (resultsReorder num_gpus results : Multiset α) = (results : Multiset α)
    ∧ resultsReorder 1 results = results := by
  have hperm : List.Perm (resultsReorder num_gpus results) results := by
    unfold resultsReorder
    split
    · exact strideSlice_flatMap_perm results num_gpus (by omega)
    · exact List.Perm.refl results
  exact ⟨fun h => by unfold resultsReorder; rw [if_pos h],
         hperm, hperm.length_eq, Multiset.coe_eq_coe.mpr hperm, rfl⟩

/-- Witness for C8 at a concrete call: two GPUs interleave five results as
`[0::2] ++ [1::2]`, and one GPU keeps the order. -/
theorem resultsReorder_perm_witness :
    (resultsReorder 2 [10, 20, 30, 40, 50]
      = (List.range 2).flatMap (fun i => strideSlice [10, 20, 30, 40, 50] i 2))
    ∧ List.Perm (resultsReorder 2 [10, 20, 30, 40, 50]) [10, 20, 30, 40, 50]
    ∧ resultsReorder 1 [7, 8] = [7, 8]
    ∧ resultsReorder 2 [10, 20, 30, 40, 50] = [10, 30, 50, 20, 40] :=
  ⟨(resultsReorder_perm 2 [10, 20, 30, 40, 50]).1 (by decide),
   (resultsReorder_perm 2 [10, 20, 30, 40, 50]).2.1,
   (resultsReorder_perm 1 [7, 8]).2.2.2.2,
   by decide⟩

abbrev Arr2 (α : Type) := List (List α)
abbrev Arr3 (α : Type) := List (List (List α))

/-- A stored image array: 2-dimensional (grayscale) or 3-dimensional
(H × W × C, channels last). -/
inductive NpImg (α : Type) where
  | d2 (a : Arr2 α)
  | d3 (a : Arr3 α)

/-- `np.expand_dims(img, -1)` on a 2-d array. -/
def expandDimsLast {α : Type} (a : Arr2 α) : Arr3 α :=
  a.map (fun row => row.map (fun x => [x]))

/-- `img[..., ::-1]`: the last axis reversed. -/
def reverseLastAxis {α : Type} (a : Arr3 α) : Arr3 α :=
  a.map (fun row => row.map List.reverse)

/-- `np.repeat(img, 3, axis=2)`: each channel entry repeated three times. -/
def repeatLastAxis3 {α : Type} (a : Arr3 α) : Arr3 α :=
  a.map (fun row => row.map (fun px => px.flatMap (fun x => List.replicate 3 x)))

/-- The numpy shape `(H, W, C)` of a (rectangular) 3-d array. -/
def shape3 {α : Type} (a : Arr3 α) : Nat × Nat × Nat :=
  (a.length, (a.head?.map List.length).getD 0,
   ((a.head?.bind List.head?).map List.length).getD 0)

/-- Lines 336-341 of `transform`: a 2-dimensional image first gets a
trailing channel axis, the channel axis is reversed (RGB to BGR), and a
single-channel image is repeated to 3 channels. -/
def convertImg {α : Type} (img : NpImg α) : Arr3 α :=
  let a :=
    match img with
    | .d2 a => expandDimsLast a    -- if img.ndim == 2: np.expand_dims(img, -1)
    | .d3 a => a
  let a := reverseLastAxis a       -- img = img[..., ::-1]
  if (shape3 a).2.2 = 1 then repeatLastAxis3 a else a

/-- A stored sample: `sample_in[images_tensor]` and
`sample_in[masks_tensor]`, uint8 arrays. -/
structure SampleIn where
  img : NpImg Nat
  mask : Arr2 Nat

/-- The `pipeline_dict` of `transform` (lines 344-353). -/
structure PipelineInput where
  img : Arr3 ℚ
  img_fields : List String
  filename : Option String
  ori_filename : Option String
  img_shape : Nat × Nat × Nat
  ori_shape : Nat × Nat × Nat
  gt_semantic_seg : Arr2 Nat
  seg_fields : List String

/-- The exact value of a uint8 sample as a float32 (the cast is lossless),
modelled in `ℚ`. -/
def natToRat (x : Nat) : ℚ := x

/-- `transform` (lines 322-355) up to the final call into the external
pipeline: the dict handed to `pipeline(...)`.  `np.ascontiguousarray(img,
dtype=np.float32)` is the exact cast of the uint8 values, modelled by
`natToRat`; both shape entries are the shape of the converted image. -/
def transform_input (sample_in : SampleIn) : PipelineInput :=
  let img := convertImg sample_in.img
  let shape := shape3 img
  { img := img.map (fun row => row.map (fun px => px.map natToRat))
    img_fields := ["img"]
    filename := none
    ori_filename := none
    img_shape := shape
    ori_shape := shape
    gt_semantic_seg := sample_in.mask
    seg_fields := ["gt_semantic_seg"] }

/-- Element access `a[i, j, c]` on the nested-list model. -/
def get3 {α : Type} (a : Arr3 α) (i j c : Nat) : Option α :=
  ((a[i]?.bind (fun row => row[j]?)).bind (fun px => px[c]?))

/-- Element access `a[i, j]` on the nested-list model. -/
def get2 {α : Type} (a : Arr2 α) (i j : Nat) : Option α :=
  a[i]?.bind (fun row => row[j]?)

/-- A rectangular 2-d array of width `W`. -/
def Rect2 {α : Type} (a : Arr2 α) (W : Nat) : Prop := ∀ row ∈ a, row.length = W

/-- A rectangular 3-d array of width `W` and channel count `C`. -/
def Rect3 {α : Type} (a : Arr3 α) (W C : Nat) : Prop :=
  ∀ row ∈ a, row.length = W ∧ ∀ px ∈ row, px.length = C

instance {α : Type} (a : Arr2 α) (W : Nat) : Decidable (Rect2 a W) := by
  unfold Rect2; infer_instance

instance {α : Type} (a : Arr3 α) (W C : Nat) : Decidable (Rect3 a W C) := by
  unfold Rect3; infer_instance

theorem shape3_reverse_ne_one {α : Type} (a : Arr3 α) (W C : Nat)
    (hrect : Rect3 a W C) (hC : C ≠ 1) :
    (shape3 (reverseLastAxis a)).2.2 ≠ 1 := by
  cases a with
  | nil => simp [shape3, reverseLastAxis]
  | cons row rest =>
    cases row with
    | nil => simp [shape3, reverseLastAxis]
    | cons px prest =>
      have hpx : px.length = C :=
        (hrect _ (List.mem_cons_self _ _)).2 px (List.mem_cons_self _ _)
      simpa [shape3, reverseLastAxis, hpx] using hC

theorem convertImg_d3_multi {α : Type} (a : Arr3 α) (W C : Nat)
    (hrect : Rect3 a W C) (hC : C ≠ 1) :
    convertImg (.d3 a) = reverseLastAxis a := by
  show (if (shape3 (reverseLastAxis a)).2.2 = 1
      then repeatLastAxis3 (reverseLastAxis a) else reverseLastAxis a)
    = reverseLastAxis a
  rw [if_neg (shape3_reverse_ne_one a W C hrect hC)]

theorem transform_img_d3_multi (a : Arr3 Nat) (W C : Nat)
    (hrect : Rect3 a W C) (hC : C ≠ 1) (i j c : Nat) (hc : c < C) :
    get3 (transform_input ⟨.d3 a, []⟩).img i j c
      = (get3 a i j (C - 1 - c)).map natToRat := by
  show get3 ((convertImg (.d3 a)).map
      (fun row => row.map (fun px => px.map natToRat))) i j c = _
  rw [convertImg_d3_multi a W C hrect hC]
  unfold reverseLastAxis get3
  simp only [List.map_map, List.getElem?_map]
  cases hi : a[i]? with
  | none => simp
  | some row =>
    cases hj : row[j]? with
    | none => simp [List.getElem?_map, hj]
    | some px =>
      have hpx : px.length = C :=
        (hrect row (List.getElem?_mem hi)).2 px (List.getElem?_mem hj)
      simp [List.getElem?_map, hj]
      rw [List.getElem?_reverse (by simpa [hpx] using hc)]
      simp [List.getElem?_map, hpx]

theorem get3_map_pixels {α β : Type} (a : Arr3 α) (g : List α → List β)
    (i j c : Nat) :
    get3 (a.map (fun row => row.map g)) i j c
      = ((a[i]?.bind (fun row => row[j]?)).map g).bind (fun px => px[c]?) := by
  unfold get3
  rw [List.getElem?_map]
  cases a[i]? with
  | none => rfl
  | some row =>
    show ((row.map g)[j]?).bind (fun px => px[c]?)
      = ((row[j]?).map g).bind (fun px => px[c]?)
    rw [List.getElem?_map]

theorem get3_of_elem_map {α β : Type} (a : Arr2 α) (h : α → List β)
    (i j c : Nat) :
    get3 (a.map (fun row => row.map h)) i j c
      = ((get2 a i j).map h).bind (fun px => px[c]?) := by
  unfold get3 get2
  rw [List.getElem?_map]
  cases a[i]? with
  | none => rfl
  | some row =>
    show ((row.map h)[j]?).bind (fun px => px[c]?)
      = ((row[j]?).map h).bind (fun px => px[c]?)
    rw [List.getElem?_map]

theorem d2_pipeline_eq (a : Arr2 Nat) :
    (repeatLastAxis3 (reverseLastAxis (expandDimsLast a))).map
        (fun row => row.map (fun px => px.map natToRat))
      = a.map (fun row => row.map (fun x => List.replicate 3 (natToRat x))) := by
  simp [expandDimsLast, reverseLastAxis, repeatLastAxis3, List.map_map,
        Function.comp, List.replicate]

theorem d3_pipeline_eq (a : Arr3 Nat) :
    (repeatLastAxis3 (reverseLastAxis a)).map
        (fun row => row.map (fun px => px.map natToRat))
      = a.map (fun row => row.map (fun px =>
          (px.reverse.flatMap (fun x => List.replicate 3 x)).map natToRat)) := by
  simp [reverseLastAxis, repeatLastAxis3, List.map_map, Function.comp]

theorem transform_img_d2 (a : Arr2 Nat) (W : Nat) (hrect : Rect2 a W)
    (i j x c : Nat) (hx : get2 a i j = some x) (hc : c < 3) :
    get3 (transform_input ⟨.d2 a, []⟩).img i j c = some (natToRat x) := by
  have hg : get2 a i j = some x := hx
  -- the sample row and the first row are both nonempty (width W > 0)
  have hi : ∃ row, a[i]? = some row := by
    unfold get2 at hx
    cases hsome : a[i]? with
    | none => rw [hsome] at hx; simp at hx
    | some row => exact ⟨row, rfl⟩
  obtain ⟨row, hi⟩ := hi
  unfold get2 at hx
  rw [hi] at hx
  simp only [Option.some_bind] at hx
  have hW : 0 < W :=
    hrect row (List.getElem?_mem hi) ▸ List.length_pos_of_mem (List.getElem?_mem hx)
  obtain ⟨rowh, rest, ha⟩ :=
    List.exists_cons_of_ne_nil (List.ne_nil_of_mem (List.getElem?_mem hi))
  have hrowh : rowh.length = W := hrect rowh (ha ▸ List.mem_cons_self _ _)
  obtain ⟨y, ry, hr⟩ := List.exists_cons_of_ne_nil
    (show rowh ≠ [] by intro hnil; rw [hnil] at hrowh; simp at hrowh; omega)
  have hcond :
      (shape3 (reverseLastAxis (expandDimsLast a))).2.2 = 1 := by
    rw [ha, hr]
    simp [shape3, reverseLastAxis, expandDimsLast]
  have hconv : convertImg (NpImg.d2 a)
      = repeatLastAxis3 (reverseLastAxis (expandDimsLast a)) := by
    simp only [convertImg]
    rw [if_pos hcond]
  show get3 ((convertImg (.d2 a)).map
      (fun row => row.map (fun px => px.map natToRat))) i j c = _
  rw [hconv, d2_pipeline_eq, get3_of_elem_map, hg]
  simp [List.getElem?_replicate, hc]
  interval_cases c <;> rfl

theorem transform_img_d3_single (a : Arr3 Nat) (W : Nat) (hrect : Rect3 a W 1)
    (i j x c : Nat) (hx : get3 a i j 0 = some x) (hc : c < 3) :
    get3 (transform_input ⟨.d3 a, []⟩).img i j c = some (natToRat x) := by
  have hi : ∃ row, a[i]? = some row := by
    unfold get3 at hx
    cases hsome : a[i]? with
    | none => rw [hsome] at hx; simp at hx
    | some row => exact ⟨row, rfl⟩
  obtain ⟨row, hi⟩ := hi
  unfold get3 at hx
  rw [hi] at hx
  simp only [Option.some_bind] at hx
  have hj : ∃ px, row[j]? = some px := by
    cases hsome : row[j]? with
    | none => rw [hsome] at hx; simp at hx
    | some px => exact ⟨px, rfl⟩
  obtain ⟨px, hj⟩ := hj
  rw [hj] at hx
  simp only [Option.some_bind] at hx
  have hpxlen : px.length = 1 :=
    (hrect row (List.getElem?_mem hi)).2 px (List.getElem?_mem hj)
  have hpx : px = [x] := by
    cases px with
    | nil => simp at hx
    | cons z zs =>
      simp at hx hpxlen
      simp [hx, hpxlen]
  have hW : 0 < W :=
    (hrect row (List.getElem?_mem hi)).1 ▸
      List.length_pos_of_mem (List.getElem?_mem hj)
  obtain ⟨rowh, rest, ha⟩ :=
    List.exists_cons_of_ne_nil (List.ne_nil_of_mem (List.getElem?_mem hi))
  have hrowh := hrect rowh (ha ▸ List.mem_cons_self _ _)
  obtain ⟨px0, rpx, hr⟩ := List.exists_cons_of_ne_nil
    (show rowh ≠ [] by intro hnil; rw [hnil] at hrowh; simp at hrowh; omega)
  have hpx0 : px0.length = 1 := hrowh.2 px0 (hr ▸ List.mem_cons_self _ _)
  have hcond : (shape3 (reverseLastAxis a)).2.2 = 1 := by
    rw [ha, hr]
    simp [shape3, reverseLastAxis, hpx0]
  have hconv : convertImg (NpImg.d3 a)
      = repeatLastAxis3 (reverseLastAxis a) := by
    simp only [convertImg]
    rw [if_pos hcond]
  show get3 ((convertImg (.d3 a)).map
      (fun row => row.map (fun px => px.map natToRat))) i j c = _
  rw [hconv, d3_pipeline_eq, get3_map_pixels, hi]
  simp only [Option.some_bind]
  rw [hj]
  simp [hpx, List.getElem?_replicate, hc, List.replicate]
  interval_cases c <;> rfl

/-- C5: for every sample, the pipeline input built by `transform` carries
the stored mask unchanged under `gt_semantic_seg`; `img_shape` and
`ori_shape` both equal to the shape of the converted image; and under `img`
the stored image with its channel axis reversed (RGB to BGR) — a
2-dimensional image first expanded with a trailing channel axis, any
single-channel image repeated to 3 channels — with the uint8 values cast
exactly to float32. -/
theorem transform_input_spec (s : SampleIn) :
    ((transform_input s).gt_semantic_seg = s.mask
      ∧ (transform_input s).img_shape = shape3 (convertImg s.img)
      ∧ (transform_input s).ori_shape = shape3 (convertImg s.img)
      ∧ (transform_input s).img
          = (convertImg s.img).map (fun row => row.map (fun px => px.map natToRat)))
    ∧ (∀ a W C, s.img = .d3 a → Rect3 a W C → C ≠ 1 → ∀ i j c, c < C →
        get3 (transform_input s).img i j c
          = (get3 a i j (C - 1 - c)).map natToRat)
    ∧ (∀ a W, s.img = .d2 a → Rect2 a W → ∀ i j x c, get2 a i j = some x →
        c < 3 → get3 (transform_input s).img i j c = some (natToRat x))
    ∧ (∀ a W, s.img = .d3 a → Rect3 a W 1 → ∀ i j x c, get3 a i j 0 = some x →
        c < 3 → get3 (transform_input s).img i j c = some (natToRat x)) := by
  refine ⟨⟨rfl, rfl, rfl, rfl⟩, ?_, ?_, ?_⟩
  · intro a W C himg hrect hC i j c hc
    show get3 ((convertImg s.img).map
        (fun row => row.map (fun px => px.map natToRat))) i j c = _
    rw [himg]
    exact transform_img_d3_multi a W C hrect hC i j c hc
  · intro a W himg hrect i j x c hx hc
    show get3 ((convertImg s.img).map
        (fun row => row.map (fun px => px.map natToRat))) i j c = _
    rw [himg]
    exact transform_img_d2 a W hrect i j x c hx hc
  · intro a W himg hrect i j x c hx hc
    show get3 ((convertImg s.img).map
        (fun row => row.map (fun px => px.map natToRat))) i j c = _
    rw [himg]
    exact transform_img_d3_single a W hrect i j x c hx hc

/-- Witness for C5 at concrete samples: a 1×1 RGB pixel `[1,2,3]` comes out
with channel 0 holding the stored channel 2 (BGR), and a 1×1 grayscale
pixel `5` comes out with three equal channels. -/
theorem transform_input_spec_witness :
    ((transform_input ⟨.d3 [[[1, 2, 3]]], [[7]]⟩).gt_semantic_seg = [[7]])
    ∧ get3 (transform_input ⟨.d3 [[[1, 2, 3]]], [[7]]⟩).img 0 0 0
        = some (natToRat 3)
    ∧ get3 (transform_input ⟨.d2 [[5]], []⟩).img 0 0 2 = some (natToRat 5) :=
  ⟨(transform_input_spec ⟨.d3 [[[1, 2, 3]]], [[7]]⟩).1.1,
   (transform_input_spec ⟨.d3 [[[1, 2, 3]]], [[7]]⟩).2.1 [[[1, 2, 3]]] 1 3 rfl
      (by decide) (by decide) 0 0 0 (by decide),
   (transform_input_spec ⟨.d2 [[5]], []⟩).2.2.1 [[5]] 1 rfl (by decide)
      0 0 5 2 rfl (by decide)⟩

end MMSegModel
